import Mathlib

/-
Shallow embedding of the python-sqlalchemy repository, for checking its
natural-language specification.

The main subject is the fluent async query builder in
`src/python_sqlalchemy/query_ex1/async_base.py` (`AsyncQuerySet`), which
accumulates filter / order / group / join / pagination state and composes it
lazily into a single SQLAlchemy `select` statement when one of the execution
methods (`list`, `first`, `count`) is awaited.  We model the accumulated state
as a record, the built SQLAlchemy statement as a record `Select` (SQLAlchemy
`Select` objects are generative: `where`/`order_by`/`group_by`/`join` append
criteria, `limit`/`offset` replace the current value), and the execution
methods as functions from query-set state to the one statement they execute.

Types that the Python code treats as opaque values (the model class, column
expressions, filter conditions, ordering and grouping expressions, join
targets and onclauses) are type parameters `M F C O G T J`; concrete claims
instantiate them with small decidable types.
-/

namespace PySqla

section QueryBuilder

variable {M F C O G T J : Type}

/-- State of `AsyncQuerySet` as set up by `__init__` and mutated by the
builder methods (`async_base.py`, lines 12-43).  Field correspondence:
`fieldsSel` is `self._fields`, `filters` is `self._filters`, `order` is
`self._order`, `group` is `self._group`, `joins` is `self._joins` (each join
is the `(target, onclause, isouter)` triple), `limitSt` is `self._limit` and
`offsetSt` is `self._offset` (Python `None` is `none`).  The session is kept
abstract as a tag. -/
structure AsyncQuerySet (M F C O G T J : Type) where
  model : M
  session : Nat
  fieldsSel : Option (List F)
  filters : List C
  order : List O
  group : List G
  joins : List (T × Option J × Bool)
  limitSt : Option Int
  offsetSt : Option Int
deriving DecidableEq

/-- Constructor `AsyncQuerySet.__init__(model, session, fields)`: all accumulators start
empty, limit and offset start as `None`. -/
def AsyncQuerySet.init (model : M) (session : Nat) (fields : Option (List F)) :
    AsyncQuerySet M F C O G T J :=
  { model := model, session := session, fieldsSel := fields, filters := [],
    order := [], group := [], joins := [], limitSt := none, offsetSt := none }

/-- Method `where(*conditions)`: `self._filters.extend(conditions); return self`. -/
def AsyncQuerySet.whereQ (q : AsyncQuerySet M F C O G T J) (conditions : List C) :
    AsyncQuerySet M F C O G T J :=
  { q with filters := q.filters ++ conditions }

/-- Method `order_by(*ordering)`: `self._order.extend(ordering); return self`. -/
def AsyncQuerySet.orderByQ (q : AsyncQuerySet M F C O G T J) (ordering : List O) :
    AsyncQuerySet M F C O G T J :=
  { q with order := q.order ++ ordering }

/-- Method `group_by(*grouping)`: `self._group.extend(grouping); return self`. -/
def AsyncQuerySet.groupByQ (q : AsyncQuerySet M F C O G T J) (grouping : List G) :
    AsyncQuerySet M F C O G T J :=
  { q with group := q.group ++ grouping }

/-- Method `join(target, onclause=None, isouter=False)`:
`self._joins.append((target, onclause, isouter)); return self`. -/
def AsyncQuerySet.joinQ (q : AsyncQuerySet M F C O G T J) (target : T)
    (onclause : Option J) (isouter : Bool) : AsyncQuerySet M F C O G T J :=
  { q with joins := q.joins ++ [(target, onclause, isouter)] }

/-- Method `paginate(page=1, page_size=20)`: `self._limit = page_size;
self._offset = (page - 1) * page_size; return self`. -/
def AsyncQuerySet.paginate (q : AsyncQuerySet M F C O G T J)
    (page page_size : Int) : AsyncQuerySet M F C O G T J :=
  { q with limitSt := some page_size, offsetSt := some ((page - 1) * page_size) }

/-- What a built `select` statement selects: `select(model)`,
`select(*fields)`, or `select(func.count()).select_from(model)`. -/
inductive SelectTarget (M F : Type) where
  | wholeModel (m : M)
  | fieldList (fs : List F)
  | countFrom (m : M)
deriving DecidableEq

/-- A SQLAlchemy `Select` statement as the query builder produces it: the
selected target plus the accumulated WHERE criteria, ORDER BY and GROUP BY
clauses, joins (in the order `.join` was called) and the current LIMIT and
OFFSET values (`none` = no clause). -/
structure Select (M F C O G T J : Type) where
  target : SelectTarget M F
  whereCrit : List C
  orderCrit : List O
  groupCrit : List G
  joinedTo : List (T × Option J × Bool)
  limitCl : Option Int
  offsetCl : Option Int
deriving DecidableEq

/-- Statement `select(*(fields if fields else [model]))` with no other clauses. -/
def saSelect (fields : Option (List F)) (m : M) : Select M F C O G T J :=
  { target := match fields with
      | some fs => SelectTarget.fieldList fs
      | none => SelectTarget.wholeModel m
    whereCrit := [], orderCrit := [], groupCrit := [], joinedTo := [],
    limitCl := none, offsetCl := none }

/-- Statement `select(func.count()).select_from(model)` with no other clauses. -/
def saSelectCount (m : M) : Select M F C O G T J :=
  { target := SelectTarget.countFrom m, whereCrit := [], orderCrit := [],
    groupCrit := [], joinedTo := [], limitCl := none, offsetCl := none }

/-- Generative `Select.where(*criteria)`: appends criteria (SQLAlchemy
combines multiple WHERE criteria with AND). -/
def Select.whereS (s : Select M F C O G T J) (cs : List C) : Select M F C O G T J :=
  { s with whereCrit := s.whereCrit ++ cs }

/-- Generative `Select.order_by(*clauses)`: appends ordering clauses. -/
def Select.orderByS (s : Select M F C O G T J) (os : List O) : Select M F C O G T J :=
  { s with orderCrit := s.orderCrit ++ os }

/-- Generative `Select.group_by(*clauses)`: appends grouping clauses. -/
def Select.groupByS (s : Select M F C O G T J) (gs : List G) : Select M F C O G T J :=
  { s with groupCrit := s.groupCrit ++ gs }

/-- Generative `Select.join(target, onclause=..., isouter=...)`: appends one
join. -/
def Select.joinS (s : Select M F C O G T J) (t : T) (onclause : Option J)
    (isouter : Bool) : Select M F C O G T J :=
  { s with joinedTo := s.joinedTo ++ [(t, onclause, isouter)] }

/-- Generative `Select.limit(n)`: replaces the LIMIT value. -/
def Select.limitS (s : Select M F C O G T J) (n : Int) : Select M F C O G T J :=
  { s with limitCl := some n }

/-- Generative `Select.offset(n)`: replaces the OFFSET value. -/
def Select.offsetS (s : Select M F C O G T J) (n : Int) : Select M F C O G T J :=
  { s with offsetCl := some n }

/-- Python truthiness of an optional int (`if self._limit:`): `None` and `0`
are falsy, every other int is truthy. -/
def intTruthy : Option Int → Bool
  | none => false
  | some n => n != 0

/-- The single statement that `AsyncQuerySet.list` builds and hands to
`session.execute` (`async_base.py`, lines 51-67): start from
`select(fields or model)`, then conditionally apply `where`, `order_by`,
`group_by`, fold over the joins in order, and apply `limit`/`offset` only
when the stored value is truthy. -/
def AsyncQuerySet.listStmt (q : AsyncQuerySet M F C O G T J) : Select M F C O G T J :=
  let s := saSelect q.fieldsSel q.model
  let s := if q.filters.isEmpty then s else s.whereS q.filters
  let s := if q.order.isEmpty then s else s.orderByS q.order
  let s := if q.group.isEmpty then s else s.groupByS q.group
  let s := q.joins.foldl (fun acc tj => acc.joinS tj.1 tj.2.1 tj.2.2) s
  let s := if intTruthy q.limitSt then s.limitS (q.limitSt.getD 0) else s
  let s := if intTruthy q.offsetSt then s.offsetS (q.offsetSt.getD 0) else s
  s

/-- The single statement that `AsyncQuerySet.count` hands to
`session.scalar` (`async_base.py`, lines 45-49):
`select(func.count()).select_from(model)` plus the filters — nothing else. -/
def AsyncQuerySet.countStmt (q : AsyncQuerySet M F C O G T J) : Select M F C O G T J :=
  let s := saSelectCount (F := F) (C := C) (O := O) (G := G) (T := T) (J := J) q.model
  if q.filters.isEmpty then s else s.whereS q.filters

/-- The single statement that `AsyncQuerySet.first` hands to
`session.execute` (`async_base.py`, lines 73-87): filters, ordering and the
joins, then `limit(1)`; the stored group / limit / offset are not used. -/
def AsyncQuerySet.firstStmt (q : AsyncQuerySet M F C O G T J) : Select M F C O G T J :=
  let s := saSelect q.fieldsSel q.model
  let s := if q.filters.isEmpty then s else s.whereS q.filters
  let s := if q.order.isEmpty then s else s.orderByS q.order
  let s := q.joins.foldl (fun acc tj => acc.joinS tj.1 tj.2.1 tj.2.2) s
  s.limitS 1

/-- How an execution method unpacks the result: `result.unique().scalars()`
(model instances) when no fields were selected, raw rows otherwise. -/
inductive ResultShape where
  | scalars
  | rawRows
deriving DecidableEq

/-- Result shape of `list` / `first`: `scalars` iff `self._fields` is falsy. -/
def AsyncQuerySet.resultShape (q : AsyncQuerySet M F C O G T J) : ResultShape :=
  if q.fieldsSel.isNone then ResultShape.scalars else ResultShape.rawRows

/-- One fluent builder call on an `AsyncQuerySet` (the methods at
`async_base.py` lines 24-43). -/
inductive BuilderCall (C O G T J : Type) where
  | whereC (conditions : List C)
  | orderByC (ordering : List O)
  | groupByC (grouping : List G)
  | joinC (target : T) (onclause : Option J) (isouter : Bool)
  | paginateC (page : Int) (page_size : Int)
deriving DecidableEq

/-- Apply one builder call to the query-set state. -/
def applyCall (q : AsyncQuerySet M F C O G T J) :
    BuilderCall C O G T J → AsyncQuerySet M F C O G T J
  | BuilderCall.whereC cs => q.whereQ cs
  | BuilderCall.orderByC os => q.orderByQ os
  | BuilderCall.groupByC gs => q.groupByQ gs
  | BuilderCall.joinC t onc iso => q.joinQ t onc iso
  | BuilderCall.paginateC p ps => q.paginate p ps

/-- Apply a chain of builder calls, left to right. -/
def applyCalls (q : AsyncQuerySet M F C O G T J)
    (calls : List (BuilderCall C O G T J)) : AsyncQuerySet M F C O G T J :=
  calls.foldl applyCall q

/-- All conditions passed to `where` across a call chain, in order. -/
def accFilters : List (BuilderCall C O G T J) → List C
  | [] => []
  | c :: rest =>
    (match c with
     | BuilderCall.whereC cs => cs
     | _ => []) ++ accFilters rest

/-- All ordering expressions passed to `order_by` across a call chain. -/
def accOrder : List (BuilderCall C O G T J) → List O
  | [] => []
  | c :: rest =>
    (match c with
     | BuilderCall.orderByC os => os
     | _ => []) ++ accOrder rest

/-- All grouping expressions passed to `group_by` across a call chain. -/
def accGroup : List (BuilderCall C O G T J) → List G
  | [] => []
  | c :: rest =>
    (match c with
     | BuilderCall.groupByC gs => gs
     | _ => []) ++ accGroup rest

/-- All joins added across a call chain, in the order they were added. -/
def accJoins : List (BuilderCall C O G T J) → List (T × Option J × Bool)
  | [] => []
  | c :: rest =>
    (match c with
     | BuilderCall.joinC t onc iso => [(t, onc, iso)]
     | _ => []) ++ accJoins rest

/-- The `(page, page_size)` of the last `paginate` in a call chain, if any
(each `paginate` overwrites the stored limit and offset). -/
def accPag : List (BuilderCall C O G T J) → Option (Int × Int)
  | [] => none
  | c :: rest =>
    match accPag rest with
    | some pr => some pr
    | none =>
      match c with
      | BuilderCall.paginateC p ps => some (p, ps)
      | _ => none

/-- Stored limit after a call chain starting from a fresh query-set. -/
def pagLimit (calls : List (BuilderCall C O G T J)) : Option Int :=
  (accPag calls).map fun pr => pr.2

/-- Stored offset after a call chain starting from a fresh query-set. -/
def pagOffset (calls : List (BuilderCall C O G T J)) : Option Int :=
  (accPag calls).map fun pr => (pr.1 - 1) * pr.2

/-- The LIMIT (or OFFSET) clause the builder emits for a stored value:
present exactly when the stored value is truthy (the `if self._limit:` /
`if self._offset:` guards). -/
def pyLimitClause (v : Option Int) : Option Int :=
  if intTruthy v then v else none

/-- The one select statement composing a full set of accumulated state:
requested fields (or the whole model), every filter, ordering and grouping
expression, the joins in order, and the pagination limit and offset as the
builder applies them (a stored value of `None` or `0` emits no clause). -/
def composedSelect (fields : Option (List F)) (m : M) (filters : List C)
    (ord : List O) (grp : List G) (js : List (T × Option J × Bool))
    (lim off : Option Int) : Select M F C O G T J :=
  { target := match fields with
      | some fs => SelectTarget.fieldList fs
      | none => SelectTarget.wholeModel m
    whereCrit := filters, orderCrit := ord, groupCrit := grp, joinedTo := js,
    limitCl := pyLimitClause lim, offsetCl := pyLimitClause off }

end QueryBuilder

section Semantics

variable {M F C O G T J R : Type}

/-- Result of executing a select statement: a list of rows, or a count. -/
inductive EvalOut (R : Type) where
  | rowsOut (rs : List R)
  | countOut (n : Nat)
deriving DecidableEq

/-- A row passes a WHERE clause iff it satisfies every criterion (SQLAlchemy
combines the criteria of `.where` conjunctively). -/
def rowPasses (sem : C → R → Bool) (crit : List C) (r : R) : Bool :=
  crit.all fun c => sem c r

/-- SQL OFFSET: skip the first `k` rows (no clause skips nothing). -/
def applyOffsetCl (off : Option Int) (rs : List R) : List R :=
  match off with
  | none => rs
  | some k => rs.drop k.toNat

/-- SQL LIMIT: keep at most `n` rows (no clause keeps all). -/
def applyLimitCl (lim : Option Int) (rs : List R) : List R :=
  match lim with
  | none => rs
  | some n => rs.take n.toNat

/-- Relational semantics of the single-table fragment of `Select` over a
table of rows, with `sem` interpreting filter conditions.  Statements using
ordering, grouping, joins or field projection are outside the fragment and
evaluate to `none`; the fragment is enough to execute the concrete statements
the claims need.  A WHERE clause filters, then OFFSET skips, then LIMIT
truncates; a count statement counts the filtered rows. -/
def Select.evalS (sem : C → R → Bool) (table : List R)
    (s : Select M F C O G T J) : Option (EvalOut R) :=
  if s.orderCrit.isEmpty && s.groupCrit.isEmpty && s.joinedTo.isEmpty then
    match s.target with
    | SelectTarget.wholeModel _ =>
        some (EvalOut.rowsOut (applyLimitCl s.limitCl (applyOffsetCl s.offsetCl
          (table.filter (rowPasses sem s.whereCrit)))))
    | SelectTarget.fieldList _ => none
    | SelectTarget.countFrom _ =>
        if s.limitCl.isNone && s.offsetCl.isNone then
          some (EvalOut.countOut (table.filter (rowPasses sem s.whereCrit)).length)
        else none
  else none

/-- Rows returned by `list()` (executes `listStmt`, then `.all()`), within
the modelled fragment. -/
def AsyncQuerySet.listResult (sem : C → R → Bool) (table : List R)
    (q : AsyncQuerySet M F C O G T J) : Option (List R) :=
  match q.listStmt.evalS sem table with
  | some (EvalOut.rowsOut rs) => some rs
  | _ => none

/-- Row returned by `first()` (executes `firstStmt`, then `.first()`, which
is the head row or `None`), within the modelled fragment. -/
def AsyncQuerySet.firstResult (sem : C → R → Bool) (table : List R)
    (q : AsyncQuerySet M F C O G T J) : Option (Option R) :=
  match q.firstStmt.evalS sem table with
  | some (EvalOut.rowsOut rs) => some rs.head?
  | _ => none

/-- Number returned by `count()` (executes `countStmt` via
`session.scalar`), within the modelled fragment. -/
def AsyncQuerySet.countResult (sem : C → R → Bool) (table : List R)
    (q : AsyncQuerySet M F C O G T J) : Option Nat :=
  match q.countStmt.evalS sem table with
  | some (EvalOut.countOut n) => some n
  | _ => none

end Semantics

/-- A tiny decidable condition language over integer rows, used to
instantiate the abstract condition type `C` on concrete inputs. -/
inductive CondL where
  | geConst (bound : Int)
  | leConst (bound : Int)
deriving DecidableEq

/-- Interpretation of `CondL` conditions on an integer row. -/
def CondL.holds : CondL → Int → Bool
  | CondL.geConst b, r => b ≤ r
  | CondL.leConst b, r => r ≤ b

/-- Query-sets over a one-column integer table, with every opaque type
instantiated at a small decidable type. -/
abbrev QSI : Type := AsyncQuerySet Unit Unit CondL Unit Unit Unit Unit

/-- Concrete query-set for claim C2: filters accumulated via `where`, then
`paginate(page=2, page_size=2)`. -/
def qC2 : QSI :=
  ((AsyncQuerySet.init () 0 none).whereQ [CondL.geConst 2]).paginate 2 2

/-- Concrete five-row table for claim C2. -/
def tblC2 : List Int := [1, 2, 3, 4, 5]

section ColumnWrapper

/-
Embedding of `src/python_sqlalchemy/combination/orm_definition.py`.
`ORMDefinition.Column` takes the `MappedColumn` argument list; parameters
the function never inspects are kept at an abstract value type `V`.  The
`nullable` parameter ranges over `None`, `True`, `False` and
`SchemaConst.NULL_UNSPECIFIED` (its default); `init` ranges over
`_NoArg.NO_ARG` (`none`) and the two booleans.
-/

variable {V : Type}

/-- The four possible values of the `nullable` argument. -/
inductive NullableArg where
  | noneVal
  | trueVal
  | falseVal
  | nullUnspecified
deriving DecidableEq

/-- The argument list of `ORMDefinition.Column` / `MappedColumn`.  `init`,
`reprA`, `compare`, `kw_only` model the `Union[_NoArg, bool]` parameters
(`none` = `_NoArg.NO_ARG`); `hashA` models `Union[_NoArg, bool, None]`;
values the wrapper only forwards are abstract `V`s. -/
structure ColumnArgs (V : Type) where
  namePos : Option V
  typePos : Option V
  argsRest : List V
  init : Option Bool
  reprA : Option Bool
  default : Option V
  default_factory : Option V
  compare : Option Bool
  kw_only : Option Bool
  hashA : Option (Option Bool)
  nullable : NullableArg
  primary_key : Bool
  deferredA : Option Bool
  deferred_group : Option V
  deferred_raiseload : Option Bool
  use_existing_column : Bool
  name : Option V
  type_ : Option V
  autoincrement : V
  doc : Option V
  key : Option V
  index : Option Bool
  unique : Option Bool
  info : Option V
  onupdate : Option V
  insert_default : Option V
  server_default : Option V
  server_onupdate : Option V
  active_history : Bool
  quote : Option Bool
  system : Bool
  comment : Option V
  sort_order : Option Int
  kw : List V
deriving DecidableEq

/-- The `MappedColumn` object, holding exactly what its constructor was
given (the constructor packages `init`, `repr`, `default`, `default_factory`,
`compare`, `kw_only`, `hash` into `_AttributeOptions` unchanged). -/
structure MappedColumn (V : Type) where
  args : ColumnArgs V
deriving DecidableEq

/-- Calling the underlying library directly: `MappedColumn` stores the
the arguments of the caller verbatim. -/
def MappedColumn.ofArgs (a : ColumnArgs V) : MappedColumn V :=
  { args := a }

/-- Wrapper `ORMDefinition.Column` (`orm_definition.py` lines 13-91): when
`nullable is None or nullable is True or nullable == NULL_UNSPECIFIED` it
sets `init = False` and `nullable = True` before constructing the
`MappedColumn`; otherwise it forwards everything unchanged. -/
def ORMDefinition.Column (a : ColumnArgs V) : MappedColumn V :=
  if a.nullable = NullableArg.noneVal ∨ a.nullable = NullableArg.trueVal ∨
      a.nullable = NullableArg.nullUnspecified then
    MappedColumn.ofArgs
      { a with init := some false, nullable := NullableArg.trueVal }
  else
    MappedColumn.ofArgs a

/-- A concrete argument list with every field defaulted as in the Python
signature, except `init := some true` and `nullable := trueVal`. -/
def colArgsCE : ColumnArgs Nat :=
  { namePos := none, typePos := none, argsRest := [], init := some true,
    reprA := none, default := none, default_factory := none, compare := none,
    kw_only := none, hashA := none, nullable := NullableArg.trueVal,
    primary_key := false, deferredA := none, deferred_group := none,
    deferred_raiseload := none, use_existing_column := false, name := none,
    type_ := none, autoincrement := 0, doc := none, key := none,
    index := none, unique := none, info := none, onupdate := none,
    insert_default := none, server_default := none, server_onupdate := none,
    active_history := false, quote := none, system := false, comment := none,
    sort_order := none, kw := [] }

end ColumnWrapper

section FailureHandling

/-
Embedding of the failure handling in
`src/python_sqlalchemy/combination/model.py`.  `BaseModel.bulk_save` and
`BaseModel.delete` run a sequence of session operations inside
`try: ... except Exception as e: raise Exception(e)`.  We model a session
operation by its outcome (`Except PyExc Unit`), the `try` body as running
the outcomes in order stopping at the first error, and the `except` branch
as wrapping the caught exception in a fresh generic `Exception`.
-/

/-- A Python exception: either some underlying exception (tagged), or a
generic `Exception(e)` wrapping another exception. -/
inductive PyExc where
  | base (code : Nat)
  | generic (wrapped : PyExc)
deriving DecidableEq

/-- Run session operations in order; the first raised exception aborts the
rest and propagates. -/
def runSeq : List (Except PyExc Unit) → Except PyExc Unit
  | [] => Except.ok ()
  | step :: rest =>
    match step with
    | Except.ok _ => runSeq rest
    | Except.error e => Except.error e

/-- The `except Exception as e: raise Exception(e)` branch: successes pass
through, an exception is re-raised wrapped in a generic `Exception`. -/
def reraiseGeneric (r : Except PyExc Unit) : Except PyExc Unit :=
  match r with
  | Except.ok u => Except.ok u
  | Except.error e => Except.error (PyExc.generic e)

namespace BaseModel

/-- Method `BaseModel.delete` (`model.py` lines 17-22): `session.delete(self)` then
`session.commit()` inside the try/except wrapper; `deleteOp` and `commitOp`
are the outcomes of the two session operations. -/
def delete (deleteOp commitOp : Except PyExc Unit) : Except PyExc Unit :=
  reraiseGeneric (runSeq [deleteOp, commitOp])

/-- Method `BaseModel.bulk_save` (`model.py` lines 40-56): the session operations
of the try block (adds, flush, commit, refresh, hooks), in order, inside the
same try/except wrapper; `steps` are their outcomes. -/
def bulk_save (steps : List (Except PyExc Unit)) : Except PyExc Unit :=
  reraiseGeneric (runSeq steps)

end BaseModel

end FailureHandling

section DTOValidation

/-
Embedding of `src/python_sqlalchemy/combination/dto.py`.  The mapper columns of a model carry the attributes `_get_required_fields` inspects; the input
`data` dict is an association list from field name to a Python value that
may itself be `None` (`Option V`), so a lookup yields `none` (key absent),
`some none` (key maps to `None`) or `some (some v)`.
-/

variable {V : Type}

/-- One column of `inspect(model).columns`, restricted to the attributes the
DTO code reads. -/
structure PyColumn (V : Type) where
  key : String
  nullable : Bool
  primary_key : Bool
  default : Option V
  server_default : Option V
deriving DecidableEq

/-- The condition of `_get_required_fields`: `not column.nullable and not
column.primary_key and column.default is None and column.server_default is
None`. -/
def isRequired (c : PyColumn V) : Bool :=
  !c.nullable && !c.primary_key && c.default.isNone && c.server_default.isNone

namespace DTOBase

/-- Method `DTOBase._get_required_fields` (`dto.py` lines 9-15): the keys of the
mapper columns satisfying `isRequired`, in column order. -/
def get_required_fields : List (PyColumn V) → List String
  | [] => []
  | c :: rest =>
    if isRequired c then c.key :: get_required_fields rest
    else get_required_fields rest

end DTOBase

/-- Python `data.get(k)` on the input dict: `none` when `k not in data`. -/
def dictGet (data : List (String × Option V)) (k : String) : Option (Option V) :=
  match data with
  | [] => none
  | (k2, v) :: rest => if k2 = k then some v else dictGet rest k

/-- The missing-field test of the loop body:
`required_field not in data or data.get(required_field) is None`. -/
def fieldMissing (data : List (String × Option V)) (k : String) : Bool :=
  match dictGet data k with
  | none => true
  | some none => true
  | some (some _) => false

/-- The message built by the loop body: the text Required field, the field
name wrapped in single quotes, and is missing. -/
def requiredFieldMessage (k : String) : String :=
  "Required field \x27" ++ k ++ "\x27 is missing"

namespace DTOBase

/-- The loop of `_get_required_field_values` (`dto.py` lines 25-31): walk
the required fields, accumulating one exception message per missing field
and one name-to-value pair per present field, in required-field order. -/
def collectRequired (data : List (String × Option V)) :
    List String → List (String × String) × List (String × V)
  | [] => ([], [])
  | rf :: rest =>
    let acc := collectRequired data rest
    match dictGet data rf with
    | some (some v) => (acc.1, (rf, v) :: acc.2)
    | _ => ((rf, requiredFieldMessage rf) :: acc.1, acc.2)

/-- Method `DTOBase._get_required_field_values` with `raise_exception=True`
(`dto.py` lines 22-33): raises `Exception(exception_messages)` when any
required field is missing, otherwise returns `name_value_pairs`. -/
def get_required_field_values (cols : List (PyColumn V))
    (data : List (String × Option V)) :
    Except (List (String × String)) (List (String × V)) :=
  let acc := collectRequired data (get_required_fields cols)
  if acc.1.isEmpty then Except.ok acc.2 else Except.error acc.1

end DTOBase

end DTOValidation

/-
Helper lemmas.
-/

section BuilderLemmas

variable {M F C O G T J R : Type}

theorem foldl_joinS (js : List (T × Option J × Bool)) (s : Select M F C O G T J) :
    js.foldl (fun acc tj => acc.joinS tj.1 tj.2.1 tj.2.2) s
      = { s with joinedTo := s.joinedTo ++ js } := by
  induction js generalizing s with
  | nil => simp
  | cons tj rest ih =>
      rw [List.foldl_cons, ih]
      simp [Select.joinS]

theorem intTruthy_some_getD (li : Option Int) (h : intTruthy li = true) :
    some (li.getD 0) = li := by
  cases li <;> simp_all [intTruthy]

/-- The statement `list()` executes, in closed record form: it is the one
select statement composing the whole accumulated state of the query-set. -/
theorem listStmt_form (q : AsyncQuerySet M F C O G T J) :
    q.listStmt = composedSelect q.fieldsSel q.model q.filters q.order q.group
      q.joins q.limitSt q.offsetSt := by
  rcases q with ⟨m, sess, fs, fl, od, gp, js, li, off⟩
  simp only [AsyncQuerySet.listStmt, composedSelect, foldl_joinS, saSelect,
    Select.whereS, Select.orderByS, Select.groupByS, Select.limitS,
    Select.offsetS]
  split_ifs <;>
    simp_all [pyLimitClause, List.isEmpty_iff, intTruthy_some_getD]

/-- The statement `count()` executes, in closed record form:
`select(func.count()).select_from(model)` plus the filters only. -/
theorem countStmt_form (q : AsyncQuerySet M F C O G T J) :
    q.countStmt = (saSelectCount q.model).whereS q.filters := by
  rcases q with ⟨m, sess, fs, fl, od, gp, js, li, off⟩
  simp only [AsyncQuerySet.countStmt, saSelectCount, Select.whereS]
  split_ifs <;> simp_all [List.isEmpty_iff]

/-- The statement `first()` executes, in closed record form: filters,
ordering and joins with LIMIT 1, no grouping, no stored limit or offset. -/
theorem firstStmt_form (q : AsyncQuerySet M F C O G T J) :
    q.firstStmt
      = composedSelect q.fieldsSel q.model q.filters q.order [] q.joins
          (some 1) none := by
  rcases q with ⟨m, sess, fs, fl, od, gp, js, li, off⟩
  simp only [AsyncQuerySet.firstStmt, composedSelect, foldl_joinS, saSelect,
    Select.whereS, Select.orderByS, Select.limitS]
  split_ifs <;> simp_all [List.isEmpty_iff, pyLimitClause, intTruthy]

theorem applyCalls_nil (q : AsyncQuerySet M F C O G T J) : applyCalls q [] = q :=
  rfl

theorem applyCalls_cons (q : AsyncQuerySet M F C O G T J)
    (c : BuilderCall C O G T J) (rest : List (BuilderCall C O G T J)) :
    applyCalls q (c :: rest) = applyCalls (applyCall q c) rest :=
  rfl

theorem applyCalls_model (q : AsyncQuerySet M F C O G T J)
    (calls : List (BuilderCall C O G T J)) :
    (applyCalls q calls).model = q.model := by
  induction calls generalizing q with
  | nil => rfl
  | cons c rest ih =>
      rw [applyCalls_cons, ih]
      cases c <;> rfl

theorem applyCalls_session (q : AsyncQuerySet M F C O G T J)
    (calls : List (BuilderCall C O G T J)) :
    (applyCalls q calls).session = q.session := by
  induction calls generalizing q with
  | nil => rfl
  | cons c rest ih =>
      rw [applyCalls_cons, ih]
      cases c <;> rfl

theorem applyCalls_fieldsSel (q : AsyncQuerySet M F C O G T J)
    (calls : List (BuilderCall C O G T J)) :
    (applyCalls q calls).fieldsSel = q.fieldsSel := by
  induction calls generalizing q with
  | nil => rfl
  | cons c rest ih =>
      rw [applyCalls_cons, ih]
      cases c <;> rfl

theorem applyCalls_filters (q : AsyncQuerySet M F C O G T J)
    (calls : List (BuilderCall C O G T J)) :
    (applyCalls q calls).filters = q.filters ++ accFilters calls := by
  induction calls generalizing q with
  | nil => simp [applyCalls_nil, accFilters]
  | cons c rest ih =>
      rw [applyCalls_cons, ih]
      cases c <;> simp [applyCall, accFilters, AsyncQuerySet.whereQ,
        AsyncQuerySet.orderByQ, AsyncQuerySet.groupByQ, AsyncQuerySet.joinQ,
        AsyncQuerySet.paginate]

theorem applyCalls_order (q : AsyncQuerySet M F C O G T J)
    (calls : List (BuilderCall C O G T J)) :
    (applyCalls q calls).order = q.order ++ accOrder calls := by
  induction calls generalizing q with
  | nil => simp [applyCalls_nil, accOrder]
  | cons c rest ih =>
      rw [applyCalls_cons, ih]
      cases c <;> simp [applyCall, accOrder, AsyncQuerySet.whereQ,
        AsyncQuerySet.orderByQ, AsyncQuerySet.groupByQ, AsyncQuerySet.joinQ,
        AsyncQuerySet.paginate]

theorem applyCalls_group (q : AsyncQuerySet M F C O G T J)
    (calls : List (BuilderCall C O G T J)) :
    (applyCalls q calls).group = q.group ++ accGroup calls := by
  induction calls generalizing q with
  | nil => simp [applyCalls_nil, accGroup]
  | cons c rest ih =>
      rw [applyCalls_cons, ih]
      cases c <;> simp [applyCall, accGroup, AsyncQuerySet.whereQ,
        AsyncQuerySet.orderByQ, AsyncQuerySet.groupByQ, AsyncQuerySet.joinQ,
        AsyncQuerySet.paginate]

theorem applyCalls_joins (q : AsyncQuerySet M F C O G T J)
    (calls : List (BuilderCall C O G T J)) :
    (applyCalls q calls).joins = q.joins ++ accJoins calls := by
  induction calls generalizing q with
  | nil => simp [applyCalls_nil, accJoins]
  | cons c rest ih =>
      rw [applyCalls_cons, ih]
      cases c <;> simp [applyCall, accJoins, AsyncQuerySet.whereQ,
        AsyncQuerySet.orderByQ, AsyncQuerySet.groupByQ, AsyncQuerySet.joinQ,
        AsyncQuerySet.paginate]

theorem applyCalls_limit (q : AsyncQuerySet M F C O G T J)
    (calls : List (BuilderCall C O G T J)) :
    (applyCalls q calls).limitSt
      = match accPag calls with
        | some pr => some pr.2
        | none => q.limitSt := by
  induction calls generalizing q with
  | nil => rfl
  | cons c rest ih =>
      rw [applyCalls_cons, ih]
      cases h : accPag rest with
      | some pr => simp [accPag, h]
      | none =>
          cases c <;> simp [accPag, h, applyCall, AsyncQuerySet.whereQ,
            AsyncQuerySet.orderByQ, AsyncQuerySet.groupByQ,
            AsyncQuerySet.joinQ, AsyncQuerySet.paginate]

theorem applyCalls_offset (q : AsyncQuerySet M F C O G T J)
    (calls : List (BuilderCall C O G T J)) :
    (applyCalls q calls).offsetSt
      = match accPag calls with
        | some pr => some ((pr.1 - 1) * pr.2)
        | none => q.offsetSt := by
  induction calls generalizing q with
  | nil => rfl
  | cons c rest ih =>
      rw [applyCalls_cons, ih]
      cases h : accPag rest with
      | some pr => simp [accPag, h]
      | none =>
          cases c <;> simp [accPag, h, applyCall, AsyncQuerySet.whereQ,
            AsyncQuerySet.orderByQ, AsyncQuerySet.groupByQ,
            AsyncQuerySet.joinQ, AsyncQuerySet.paginate]

end BuilderLemmas

section ClaimC1

variable {M F C O G T J : Type}

/-- C1: for a query-set built by any chain of `where`, `order_by`,
`group_by`, `join` and `paginate` calls, a single call to `list()` composes
all of the accumulated state into one select statement: it selects the
requested fields (or the whole model when no fields were given), applies
every accumulated filter condition, every ordering expression, every
grouping expression, every join in the order the joins were added, and the
stored limit and offset (as the builder emits them: a stored `None` or `0`
produces no clause), and that is the one statement `list()` hands to
`session.execute`. -/
theorem claim_C1 (m : M) (sess : Nat) (fields : Option (List F))
    (calls : List (BuilderCall C O G T J)) :
    (applyCalls (AsyncQuerySet.init m sess fields) calls).listStmt
      = composedSelect fields m (accFilters calls) (accOrder calls)
          (accGroup calls) (accJoins calls) (pagLimit calls)
          (pagOffset calls) := by
  rw [listStmt_form, applyCalls_model, applyCalls_fieldsSel,
    applyCalls_filters, applyCalls_order, applyCalls_group, applyCalls_joins,
    applyCalls_limit, applyCalls_offset]
  cases h : accPag calls <;>
    simp [AsyncQuerySet.init, pagLimit, pagOffset, h]

end ClaimC1

section ClaimC2

variable {M F C O G T J : Type}

/-- C2 counterexample: on the concrete query-set `qC2` (a filter plus
`paginate(2, 2)`) over the table `[1, 2, 3, 4, 5]`, `count()` executes a
statement that is unchanged by the `paginate` call (the pagination state is
not composed into it) and returns 4, while `list()` returns the 2-row page
`[4, 5]` — so `count()` does not count the rows `list()` returns. -/
theorem claim_C2_counterexample :
    qC2.countResult CondL.holds tblC2 = some 4 ∧
    qC2.listResult CondL.holds tblC2 = some [4, 5] ∧
    qC2.countStmt
      = (((AsyncQuerySet.init () 0 none : QSI).whereQ
          [CondL.geConst 2])).countStmt ∧
    qC2.countStmt.limitCl = none ∧
    qC2.countStmt.offsetCl = none ∧
    (4 : Nat) ≠ ([4, 5] : List Int).length := by
  decide

/-- C2 (amended): `count()` composes only the accumulated filter state into
the single count query it executes (`select(func.count()).select_from(model)`
plus every accumulated filter); the accumulated ordering, grouping, join and
pagination state is not part of that query, so a query-set built with joins,
grouping or pagination may count different rows than `list()` returns. -/
theorem claim_C2 (m : M) (sess : Nat) (fields : Option (List F))
    (calls : List (BuilderCall C O G T J)) :
    (applyCalls (AsyncQuerySet.init m sess fields) calls).countStmt
      = (saSelectCount m).whereS (accFilters calls) := by
  rw [countStmt_form, applyCalls_model, applyCalls_filters]
  simp [AsyncQuerySet.init]

end ClaimC2

section ClaimC3

variable {M F C O G T J : Type}

/-- C3: each builder call returns the query-set itself (fluent chaining)
having appended to or set only the piece of accumulated state named by the
method, with the model, session, selected fields and every other piece of
state unchanged — stated as record-update equalities, which pin every other
field to its previous value; moreover no chain of builder calls ever changes
the model, the session or the selected fields.  In this embedding the
builder methods are pure state transformers: the source methods
(`async_base.py` lines 24-43) contain no session call, so nothing is
executed. -/
theorem claim_C3 (q : AsyncQuerySet M F C O G T J) (cs : List C) (os : List O)
    (gs : List G) (t : T) (onc : Option J) (iso : Bool) (p ps : Int)
    (calls : List (BuilderCall C O G T J)) :
    q.whereQ cs = { q with filters := q.filters ++ cs } ∧
    q.orderByQ os = { q with order := q.order ++ os } ∧
    q.groupByQ gs = { q with group := q.group ++ gs } ∧
    q.joinQ t onc iso = { q with joins := q.joins ++ [(t, onc, iso)] } ∧
    q.paginate p ps
      = { q with limitSt := some ps, offsetSt := some ((p - 1) * ps) } ∧
    (applyCalls q calls).model = q.model ∧
    (applyCalls q calls).session = q.session ∧
    (applyCalls q calls).fieldsSel = q.fieldsSel :=
  ⟨rfl, rfl, rfl, rfl, rfl, applyCalls_model q calls,
    applyCalls_session q calls, applyCalls_fieldsSel q calls⟩

end ClaimC3

section ClaimC4

variable {M F C O G T J : Type}

/-- C4: for every `page >= 1` and `page_size >= 0`, after
`paginate(page, page_size)` the stored limit is `page_size` and the stored
offset is `(page - 1) * page_size`; the offset of the next page exceeds the
offset of this page by exactly `page_size` (adjacent, disjoint windows of
`page_size` rows); and a later `paginate` call replaces the earlier one. -/
theorem claim_C4 (q : AsyncQuerySet M F C O G T J) (page size p2 s2 : Int)
    (hpage : 1 ≤ page) (hsize : 0 ≤ size) :
    (q.paginate page size).limitSt = some size ∧
    (q.paginate page size).offsetSt = some ((page - 1) * size) ∧
    (q.paginate (page + 1) size).offsetSt
      = (q.paginate page size).offsetSt.map (fun o => o + size) ∧
    (q.paginate page size).paginate p2 s2 = q.paginate p2 s2 := by
  refine ⟨rfl, rfl, ?_, rfl⟩
  simp only [AsyncQuerySet.paginate, Option.map_some]
  congr 1
  ring

/-- Witness for C4 at `page = 2`, `page_size = 5`, later call
`paginate(4, 7)`. -/
theorem claim_C4_witness :
    ((1 : Int) ≤ 2 ∧ (0 : Int) ≤ 5) ∧
    (((AsyncQuerySet.init () 0 none : QSI).paginate 2 5).limitSt = some 5 ∧
     ((AsyncQuerySet.init () 0 none : QSI).paginate 2 5).offsetSt
        = some ((2 - 1) * 5) ∧
     ((AsyncQuerySet.init () 0 none : QSI).paginate (2 + 1) 5).offsetSt
        = ((AsyncQuerySet.init () 0 none : QSI).paginate 2 5).offsetSt.map
            (fun o => o + 5) ∧
     ((AsyncQuerySet.init () 0 none : QSI).paginate 2 5).paginate 4 7
        = (AsyncQuerySet.init () 0 none : QSI).paginate 4 7) :=
  ⟨⟨by decide, by decide⟩,
    claim_C4 (AsyncQuerySet.init () 0 none) 2 5 4 7 (by decide) (by decide)⟩

end ClaimC4

section ClaimC5

variable {M F C O G T J R : Type}

theorem head?_take_one (l : List R) : (l.take 1).head? = l.head? := by
  cases l <;> rfl

/-- C5: `first()` composes the accumulated filters, ordering and joins into
a single query with `LIMIT 1`; the limit and offset stored by `paginate` and
the accumulated grouping do not affect that query; the result is unpacked as
a model instance when no fields were selected and as a raw row otherwise;
and (on the single-table fragment) `first()` returns the first matching row,
or `None` when no row matches. -/
theorem claim_C5 (q : AsyncQuerySet M F C O G T J) (p ps : Int) (gs : List G)
    (sem : C → R → Bool) (table : List R) :
    q.firstStmt
      = composedSelect q.fieldsSel q.model q.filters q.order [] q.joins
          (some 1) none ∧
    (q.paginate p ps).firstStmt = q.firstStmt ∧
    (q.groupByQ gs).firstStmt = q.firstStmt ∧
    q.resultShape
      = (if q.fieldsSel.isNone then ResultShape.scalars
         else ResultShape.rawRows) ∧
    (q.order = [] → q.joins = [] → q.fieldsSel = none →
      q.firstResult sem table
        = some (table.filter (rowPasses sem q.filters)).head?) := by
  refine ⟨firstStmt_form q, ?_, ?_, rfl, ?_⟩
  · rw [firstStmt_form, firstStmt_form]
    rfl
  · rw [firstStmt_form, firstStmt_form]
    rfl
  · intro h1 h2 h3
    simp [AsyncQuerySet.firstResult, firstStmt_form, composedSelect,
      Select.evalS, h1, h2, h3, pyLimitClause, intTruthy, applyLimitCl,
      applyOffsetCl, head?_take_one]

/-- Witness for C5: a fresh query-set with the single filter `row >= 3` over
the table `[1, 2, 3, 4]` satisfies the hypotheses of the last conjunct and
`first()` returns row `3`. -/
theorem claim_C5_witness :
    ((AsyncQuerySet.init () 0 none : QSI).whereQ [CondL.geConst 3]).order
        = [] ∧
    ((AsyncQuerySet.init () 0 none : QSI).whereQ [CondL.geConst 3]).joins
        = [] ∧
    ((AsyncQuerySet.init () 0 none : QSI).whereQ [CondL.geConst 3]).fieldsSel
        = none ∧
    ((AsyncQuerySet.init () 0 none : QSI).whereQ
        [CondL.geConst 3]).firstResult CondL.holds [1, 2, 3, 4]
      = some (some 3) := by
  have h :=
    (claim_C5 ((AsyncQuerySet.init () 0 none : QSI).whereQ [CondL.geConst 3])
      2 2 [()] CondL.holds [1, 2, 3, 4]).2.2.2.2 rfl rfl rfl
  refine ⟨rfl, rfl, rfl, ?_⟩
  rw [h]
  decide

end ClaimC5

section ClaimC8

variable {M F C O G T J R : Type}

/-- C8: the truthiness guards of `list()` treat a stored `0` the same as a
value never set.  After `paginate(page, 0)` the stored limit and offset are
both `0`, yet `list()` builds the same statement as if neither had been set,
so every matching row is returned rather than zero rows; likewise
`paginate(1, size)` stores offset `0` and `list()` emits no OFFSET clause. -/
theorem claim_C8 (q : AsyncQuerySet M F C O G T J) (page size : Int) (m : M)
    (sess : Nat) (cs : List C) (sem : C → R → Bool) (table : List R) :
    (q.paginate page 0).limitSt = some 0 ∧
    (q.paginate page 0).offsetSt = some 0 ∧
    (q.paginate page 0).listStmt
      = ({ q with limitSt := none, offsetSt := none } :
          AsyncQuerySet M F C O G T J).listStmt ∧
    (q.paginate 1 size).listStmt.offsetCl = none ∧
    (((AsyncQuerySet.init m sess none : AsyncQuerySet M F C O G T J).whereQ
        cs).paginate page 0).listResult sem table
      = some (table.filter (rowPasses sem cs)) := by
  refine ⟨rfl, by simp [AsyncQuerySet.paginate], ?_, ?_, ?_⟩
  · rw [listStmt_form, listStmt_form]
    simp [AsyncQuerySet.paginate, composedSelect, pyLimitClause, intTruthy]
  · rw [listStmt_form]
    simp [AsyncQuerySet.paginate, composedSelect, pyLimitClause, intTruthy]
  · simp [AsyncQuerySet.listResult, listStmt_form, AsyncQuerySet.paginate,
      AsyncQuerySet.whereQ, AsyncQuerySet.init, composedSelect, Select.evalS,
      pyLimitClause, intTruthy, applyLimitCl, applyOffsetCl]

end ClaimC8

section ClaimC9

variable {M F C O G T J R : Type}

/-- C9: accumulated filters combine conjunctively: `q.where(a).where(b)`
yields the same query-set state as `q.where(a, b)` and therefore the same
`list`, `first` and `count` statements; on the single-table fragment the two
conditions are required jointly (logical AND); and a query-set on which
`where` was never called applies no filter and returns the whole table. -/
theorem claim_C9 (q : AsyncQuerySet M F C O G T J) (a b : C) (m : M)
    (sess : Nat) (sem : C → R → Bool) (table : List R) :
    (q.whereQ [a]).whereQ [b] = q.whereQ [a, b] ∧
    ((q.whereQ [a]).whereQ [b]).listStmt = (q.whereQ [a, b]).listStmt ∧
    ((q.whereQ [a]).whereQ [b]).firstStmt = (q.whereQ [a, b]).firstStmt ∧
    ((q.whereQ [a]).whereQ [b]).countStmt = (q.whereQ [a, b]).countStmt ∧
    ((AsyncQuerySet.init m sess none :
        AsyncQuerySet M F C O G T J).whereQ [a, b]).listResult sem table
      = some (table.filter fun r => sem a r && sem b r) ∧
    (AsyncQuerySet.init m sess none :
        AsyncQuerySet M F C O G T J).listStmt.whereCrit = [] ∧
    (AsyncQuerySet.init m sess none :
        AsyncQuerySet M F C O G T J).listResult sem table = some table := by
  have hq : (q.whereQ [a]).whereQ [b] = q.whereQ [a, b] := by
    simp [AsyncQuerySet.whereQ]
  refine ⟨hq, by rw [hq], by rw [hq], by rw [hq], ?_, ?_, ?_⟩
  · have hr : rowPasses sem [a, b] = fun r => sem a r && sem b r := by
      funext r
      simp [rowPasses]
    simp [AsyncQuerySet.listResult, listStmt_form, AsyncQuerySet.whereQ,
      AsyncQuerySet.init, composedSelect, Select.evalS, pyLimitClause,
      intTruthy, applyLimitCl, applyOffsetCl, hr]
  · rw [listStmt_form]
    rfl
  · simp [AsyncQuerySet.listResult, listStmt_form, AsyncQuerySet.init,
      composedSelect, Select.evalS, pyLimitClause, intTruthy, applyLimitCl,
      applyOffsetCl, rowPasses]

end ClaimC9

section ClaimC6

variable {V : Type}

/-- C6 counterexample: with `nullable=True` and `init=True`,
`ORMDefinition.Column` does not forward its arguments unchanged — the
constructed column has `init = False` even though the caller passed
`init = True`, so it differs from the column the underlying library would
build from the same arguments. -/
theorem claim_C6_counterexample :
    ORMDefinition.Column colArgsCE ≠ MappedColumn.ofArgs colArgsCE ∧
    (ORMDefinition.Column colArgsCE).args.init = some false ∧
    colArgsCE.init = some true ∧
    colArgsCE.nullable = NullableArg.trueVal := by
  decide

/-- C6 (amended): `ORMDefinition.Column` forwards its arguments unchanged to
the underlying `MappedColumn` constructor only when the caller passes
`nullable=False`; when `nullable` is `None`, `True` or left unspecified, it
first forces `init = False` and `nullable = True` and forwards everything
else unchanged. -/
theorem claim_C6 (a : ColumnArgs V) :
    ORMDefinition.Column a
      = MappedColumn.ofArgs
          (if a.nullable = NullableArg.falseVal then a
           else { a with init := some false,
                         nullable := NullableArg.trueVal }) := by
  cases h : a.nullable <;> simp [ORMDefinition.Column, h]

end ClaimC6

section ClaimC7

/-- C7: the only failure handling in `BaseModel.bulk_save` and
`BaseModel.delete` is re-raising a generic exception: each returns the
outcome of running its session operations in order with any raised exception
re-raised as a generic `Exception` wrapping the original (nothing else
happens in the error branch — no retry, fallback or recovery), and in
particular each raises exactly when some underlying session operation
raises. -/
theorem claim_C7 (steps : List (Except PyExc Unit))
    (deleteOp commitOp : Except PyExc Unit) :
    BaseModel.bulk_save steps = (runSeq steps).mapError PyExc.generic ∧
    BaseModel.delete deleteOp commitOp
      = (runSeq [deleteOp, commitOp]).mapError PyExc.generic ∧
    (BaseModel.bulk_save steps).isOk = (runSeq steps).isOk ∧
    (BaseModel.delete deleteOp commitOp).isOk
      = (runSeq [deleteOp, commitOp]).isOk := by
  have h1 : ∀ r : Except PyExc Unit,
      reraiseGeneric r = r.mapError PyExc.generic := by
    intro r
    cases r <;> rfl
  have h2 : ∀ r : Except PyExc Unit,
      (reraiseGeneric r).isOk = r.isOk := by
    intro r
    cases r <;> rfl
  exact ⟨h1 (runSeq steps), h1 (runSeq [deleteOp, commitOp]),
    h2 (runSeq steps), h2 (runSeq [deleteOp, commitOp])⟩

end ClaimC7

section ClaimC10

variable {V : Type}

theorem get_required_fields_spec (cols : List (PyColumn V)) :
    DTOBase.get_required_fields cols
      = (cols.filter fun c => isRequired c).map PyColumn.key := by
  induction cols with
  | nil => rfl
  | cons c rest ih =>
      by_cases h : isRequired c <;>
        simp [DTOBase.get_required_fields, List.filter, h, ih]

theorem collectRequired_spec (data : List (String × Option V))
    (required : List String) :
    DTOBase.collectRequired data required
      = ((required.filter fun rf => fieldMissing data rf).map
           (fun rf => (rf, requiredFieldMessage rf)),
         required.filterMap
           fun rf => ((dictGet data rf).bind id).map fun v => (rf, v)) := by
  induction required with
  | nil => rfl
  | cons rf rest ih =>
      simp only [DTOBase.collectRequired, ih]
      cases h : dictGet data rf with
      | none => simp [fieldMissing, h, List.filter, List.filterMap]
      | some ov => cases ov <;> simp [fieldMissing, h, List.filter,
          List.filterMap]

/-- C10: `_get_required_field_values` (with `raise_exception=True`) treats
as required exactly the model columns that are non-nullable, not primary
keys and have neither a default nor a server default; it raises if and only
if some required field is absent from the input or mapped to `None`, the
raised exception carries exactly one message per missing required field, and
when no required field is missing it returns exactly the name-to-value
pairs of the required columns taken from the input. -/
theorem claim_C10 (cols : List (PyColumn V))
    (data : List (String × Option V)) :
    DTOBase.get_required_fields cols
      = (cols.filter fun c => isRequired c).map PyColumn.key ∧
    DTOBase.get_required_field_values cols data
      = (if ((DTOBase.get_required_fields cols).filter
              fun rf => fieldMissing data rf).isEmpty
         then Except.ok ((DTOBase.get_required_fields cols).filterMap
            fun rf => ((dictGet data rf).bind id).map fun v => (rf, v))
         else Except.error (((DTOBase.get_required_fields cols).filter
            fun rf => fieldMissing data rf).map
              fun rf => (rf, requiredFieldMessage rf))) ∧
    (DTOBase.get_required_field_values cols data).isOk
      = ((DTOBase.get_required_fields cols).filter
          fun rf => fieldMissing data rf).isEmpty := by
  refine ⟨get_required_fields_spec cols, ?_, ?_⟩
  · simp only [DTOBase.get_required_field_values, collectRequired_spec]
    cases h : (DTOBase.get_required_fields cols).filter
        fun rf => fieldMissing data rf <;> simp [h]
  · simp only [DTOBase.get_required_field_values, collectRequired_spec]
    cases h : (DTOBase.get_required_fields cols).filter
        fun rf => fieldMissing data rf <;> simp [h, Except.isOk, Except.toBool]

end ClaimC10

end PySqla
